import Mathlib

/-!
Verification of the PyLiason binding layer (`pyl_classes.h`).

The header wraps the CPython C API: a reference-counted handle (`Object`) around a
`PyObject*`, variadic tuple marshalling for `call_function`, a method-table builder
(`MethodDefinitions`) and a bookkeeping record (`ExposedClass`).  Foreign objects,
function pointers and allocator results are modelled as `Nat` identifiers; a Python
tuple is a fixed-length list of slots (`none` = the empty slot left by `PyTuple_New`);
fallible operations return `Except`.  Definitions are translated from the header; the
handful of member functions the header only declares are modelled from the spec and
carry a `Modelled from the spec:` doc comment.
-/

namespace PyLiason

/-- A native argument passed to `Object::call_function`: either a raw foreign object
pointer (`PyObject*`, handled by the non-template `add_tuple_var` overload) or a native
value of some other type (handled by the template overload via `alloc_pyobject`). -/
inductive Arg where
  | pyObject (p : Nat)
  | native (v : Nat)
deriving DecidableEq, Repr

/-- The foreign object a given argument contributes to the tuple: a raw `PyObject*` is
used as-is, any other native value is first converted by the conversion collaborator
`alloc_pyobject` (modelled as an arbitrary function `alloc : Nat → Nat`). -/
def foreignRep (alloc : Nat → Nat) : Arg → Nat
  | Arg.pyObject p => p
  | Arg.native v => alloc v

/-- A Python tuple: an array of slots, each either empty or holding a foreign object. -/
abbrev PyTuple := List (Option Nat)

/-- `PyTuple_New n`: a fresh tuple of size `n` with every slot empty. -/
def PyTuple_New (n : Nat) : PyTuple := List.replicate n none

/-- `PyTuple_Size`. -/
def PyTuple_Size (t : PyTuple) : Nat := t.length

/-- `PyTuple_SetItem t i p`: store `p` into slot `i` (the reference is stolen, i.e. the
slot now holds exactly the pointer that was passed). -/
def PyTuple_SetItem (t : PyTuple) (i : Nat) (p : Nat) : PyTuple := t.set i (some p)

/-- `Object::add_tuple_var` (both overloads, after the conversion of the argument to a
foreign object): store the object into slot `i` of the tuple. -/
def add_tuple_var (tup : PyTuple) (i : Nat) (pobj : Nat) : PyTuple :=
  PyTuple_SetItem tup i pobj

/-- `Object::add_tuple_vars`, the recursive variadic filler.  The singleton cases are
the two C++ base overloads (index `PyTuple_Size tup - 1`); the recursive case inserts
the head at index `PyTuple_Size tup - sizeof...(tail) - 1` and recurses on the tail.
The `[]` case corresponds to an empty argument pack (no insertion at all). -/
def add_tuple_vars (alloc : Nat → Nat) (tup : PyTuple) : List Arg → PyTuple
  | [] => tup
  | [a] => add_tuple_var tup (PyTuple_Size tup - 1) (foreignRep alloc a)
  | a :: rest =>
      add_tuple_vars alloc
        (add_tuple_var tup (PyTuple_Size tup - rest.length - 1) (foreignRep alloc a)) rest

/-- The argument tuple `Object::call_function(name, args...)` builds: a fresh tuple of
size `sizeof...(args)` filled by `add_tuple_vars`. -/
def call_function_tuple (alloc : Nat → Nat) (args : List Arg) : PyTuple :=
  add_tuple_vars alloc (PyTuple_New args.length) args

/-- `Object::call_function(name, args...)`.  `loadFn` models the private
`load_function` lookup (which throws on failure, hence `Except`); `callObject` models
`PyObject_CallObject`, returning `none` when the invocation yields no result.  A null
result is turned into `std::runtime_error("Failed to call function " + name)`. -/
def call_function (loadFn : String → Except String Nat)
    (callObject : Nat → PyTuple → Option Nat) (alloc : Nat → Nat)
    (name : String) (args : List Arg) : Except String Nat :=
  match loadFn name with
  | Except.error e => Except.error e
  | Except.ok func =>
    match callObject func (call_function_tuple alloc args) with
    | none => Except.error ("Failed to call function " ++ name)
    | some ret => Except.ok ret

theorem add_tuple_vars_cons (alloc : Nat → Nat) (tup : PyTuple) (a : Arg) (rest : List Arg) :
    add_tuple_vars alloc tup (a :: rest) =
      add_tuple_vars alloc
        (add_tuple_var tup (tup.length - rest.length - 1) (foreignRep alloc a)) rest := by
  cases rest <;> rfl

theorem add_tuple_vars_length (alloc : Nat → Nat) (args : List Arg) :
    ∀ tup : PyTuple, (add_tuple_vars alloc tup args).length = tup.length := by
  induction args with
  | nil => intro tup; rfl
  | cons a rest ih =>
      intro tup
      rw [add_tuple_vars_cons, ih]
      simp [add_tuple_var, PyTuple_SetItem]

theorem add_tuple_vars_get_lt (alloc : Nat → Nat) (args : List Arg) :
    ∀ (tup : PyTuple) (j : Nat), j < tup.length - args.length →
      (add_tuple_vars alloc tup args)[j]? = tup[j]? := by
  induction args with
  | nil => intro tup j _; rfl
  | cons a rest ih =>
      intro tup j hj
      have hj' : j < tup.length - (rest.length + 1) := by simpa using hj
      rw [add_tuple_vars_cons]
      have hlen : (add_tuple_var tup (tup.length - rest.length - 1) (foreignRep alloc a)).length
          = tup.length := by simp [add_tuple_var, PyTuple_SetItem]
      rw [ih _ j (by rw [hlen]; omega)]
      exact List.getElem?_set_ne (by omega)

theorem add_tuple_vars_get (alloc : Nat → Nat) (args : List Arg) :
    ∀ tup : PyTuple, args.length ≤ tup.length →
      ∀ (i : Nat) (h : i < args.length),
        (add_tuple_vars alloc tup args)[tup.length - args.length + i]? =
          some (some (foreignRep alloc (args.get ⟨i, h⟩))) := by
  induction args with
  | nil => intro tup _ i h; exact absurd h (Nat.not_lt_zero i)
  | cons a rest ih =>
      intro tup hle i h
      rw [add_tuple_vars_cons]
      have hlen : (add_tuple_var tup (tup.length - rest.length - 1) (foreignRep alloc a)).length
          = tup.length := by simp [add_tuple_var, PyTuple_SetItem]
      have hL : rest.length + 1 ≤ tup.length := by simpa using hle
      cases i with
      | zero =>
          have hidx : tup.length - (a :: rest).length + 0 = tup.length - rest.length - 1 := by
            simp; omega
          rw [hidx]
          rw [add_tuple_vars_get_lt alloc rest _ _ (by rw [hlen]; omega)]
          simp only [add_tuple_var, PyTuple_SetItem]
          exact List.getElem?_set_eq_of_lt _ (by omega)
      | succ i' =>
          have h' : i' < rest.length := by simpa using h
          have := ih (add_tuple_var tup (tup.length - rest.length - 1) (foreignRep alloc a))
            (by rw [hlen]; omega) i' h'
          rw [hlen] at this
          have hidx : tup.length - (a :: rest).length + (i' + 1)
              = tup.length - rest.length + i' := by simp; omega
          rw [hidx, this]
          rfl

/-- Modelled from the spec: `Object::call_function(const std::string&)` is declared at
`pyl_classes.h:112` but its body is not among the source files.  Per the spec, the
zero-argument overload "must behave identically without requiring an empty parameter
pack": same lookup, an argument container of size zero, the same failure condition
and the same result. -/
def call_function_noargs (loadFn : String → Except String Nat)
    (callObject : Nat → PyTuple → Option Nat) (name : String) : Except String Nat :=
  match loadFn name with
  | Except.error e => Except.error e
  | Except.ok func =>
    match callObject func (PyTuple_New 0) with
    | none => Except.error ("Failed to call function " ++ name)
    | some ret => Except.ok ret

/-- C1: for every argument count N, `call_function(name, a1..aN)` builds the foreign
argument tuple with size exactly N, and slot i holds the foreign representation of the
i-th supplied argument (the insertion index being computed as
`PyTuple_Size tup - remaining - 1` inside `add_tuple_vars`). -/
theorem C1_call_function_tuple_spec (alloc : Nat → Nat) (args : List Arg) :
    (call_function_tuple alloc args).length = args.length ∧
    ∀ (i : Nat) (h : i < args.length),
      (call_function_tuple alloc args)[i]? =
        some (some (foreignRep alloc (args.get ⟨i, h⟩))) := by
  constructor
  · rw [call_function_tuple, add_tuple_vars_length]; simp [PyTuple_New]
  · intro i h
    have hlen : args.length ≤ (PyTuple_New args.length).length := by simp [PyTuple_New]
    have := add_tuple_vars_get alloc args (PyTuple_New args.length) hlen i h
    simpa [call_function_tuple, PyTuple_New] using this

/-- Witness for C1 at a concrete input: two arguments, a native value and a raw
`PyObject*`. -/
theorem C1_witness :
    (call_function_tuple (fun v => v + 100) [Arg.native 5, Arg.pyObject 7]).length = 2 ∧
    (call_function_tuple (fun v => v + 100) [Arg.native 5, Arg.pyObject 7])[0]? =
      some (some 105) ∧
    (call_function_tuple (fun v => v + 100) [Arg.native 5, Arg.pyObject 7])[1]? =
      some (some 7) := by
  refine ⟨(C1_call_function_tuple_spec (fun v => v + 100)
      [Arg.native 5, Arg.pyObject 7]).1, ?_, ?_⟩
  · have := (C1_call_function_tuple_spec (fun v => v + 100)
      [Arg.native 5, Arg.pyObject 7]).2 0 (by decide)
    simpa [foreignRep] using this
  · have := (C1_call_function_tuple_spec (fun v => v + 100)
      [Arg.native 5, Arg.pyObject 7]).2 1 (by decide)
    simpa [foreignRep] using this

/-- C2: when the foreign invocation yields no result (a null return from
`PyObject_CallObject`), `call_function` reports the runtime error
`"Failed to call function " + name`, a message containing the attribute name. -/
theorem C2_null_result_error_names_attr (loadFn : String → Except String Nat)
    (callObject : Nat → PyTuple → Option Nat) (alloc : Nat → Nat)
    (name : String) (args : List Arg) (f : Nat)
    (hf : loadFn name = Except.ok f)
    (hcall : callObject f (call_function_tuple alloc args) = none) :
    call_function loadFn callObject alloc name args =
        Except.error ("Failed to call function " ++ name) ∧
    ∃ pre, "Failed to call function " ++ name = pre ++ name := by
  refine ⟨?_, ⟨"Failed to call function ", rfl⟩⟩
  simp [call_function, hf, hcall]

/-- Witness for C2 at a concrete input. -/
theorem C2_witness :
    call_function (fun _ => Except.ok 3) (fun _ _ => none) (fun v => v) "foo" [] =
      Except.error ("Failed to call function " ++ "foo") :=
  (C2_null_result_error_names_attr (fun _ => Except.ok 3) (fun _ _ => none)
    (fun v => v) "foo" [] 3 rfl rfl).1

/-- C7: the zero-argument overload behaves identically to `call_function` with an
empty argument list: same lookup, an argument tuple of size zero, the same failure
condition and the same result. -/
theorem C7_noargs_overload_equiv (loadFn : String → Except String Nat)
    (callObject : Nat → PyTuple → Option Nat) (alloc : Nat → Nat) (name : String) :
    call_function_noargs loadFn callObject name =
      call_function loadFn callObject alloc name [] := rfl

/-- C10: an argument that is already a raw `PyObject*` is inserted into the tuple
directly — for every allocator, the slot holds exactly that pointer, so it is never
passed through `alloc_pyobject` — while a native argument's slot holds the
allocator's result. -/
theorem C10_pyobject_args_bypass_alloc (args : List Arg) (i : Nat) (h : i < args.length) :
    (∀ p, args.get ⟨i, h⟩ = Arg.pyObject p →
      ∀ alloc : Nat → Nat, (call_function_tuple alloc args)[i]? = some (some p)) ∧
    (∀ v, args.get ⟨i, h⟩ = Arg.native v →
      ∀ alloc : Nat → Nat, (call_function_tuple alloc args)[i]? = some (some (alloc v))) := by
  constructor
  · intro p hp alloc
    have hlen : args.length ≤ (PyTuple_New args.length).length := by simp [PyTuple_New]
    have := add_tuple_vars_get alloc args (PyTuple_New args.length) hlen i h
    rw [hp] at this
    simpa [call_function_tuple, PyTuple_New, foreignRep] using this
  · intro v hv alloc
    have hlen : args.length ≤ (PyTuple_New args.length).length := by simp [PyTuple_New]
    have := add_tuple_vars_get alloc args (PyTuple_New args.length) hlen i h
    rw [hv] at this
    simpa [call_function_tuple, PyTuple_New, foreignRep] using this

/-- Witness for C10 at a concrete input. -/
theorem C10_witness :
    (call_function_tuple (fun v => v + 100) [Arg.pyObject 42, Arg.native 1])[0]? =
      some (some 42) ∧
    (call_function_tuple (fun v => v + 100) [Arg.pyObject 42, Arg.native 1])[1]? =
      some (some 101) :=
  ⟨(C10_pyobject_args_bypass_alloc [Arg.pyObject 42, Arg.native 1] 0 (by decide)).1
      42 rfl (fun v => v + 100),
   (C10_pyobject_args_bypass_alloc [Arg.pyObject 42, Arg.native 1] 1 (by decide)).2
      1 rfl (fun v => v + 100)⟩

/-- Modelled from the spec: `Object::get_attr` is declared at `pyl_classes.h:123` but
its body is not among the source files.  Per the spec, it fails with a runtime error
when the attribute is absent or retrieval otherwise fails, and returns a handle to
the attribute value otherwise.  The wrapped object is `Option Nat` (`none` = the
empty/null handle); the foreign runtime's attribute lookup is a function
`lookup : Nat → String → Option Nat`. -/
def get_attr (lookup : Nat → String → Option Nat) (obj : Option Nat)
    (name : String) : Except String Nat :=
  match obj with
  | none => Except.error ("Unable to find attribute " ++ name)
  | some o =>
    match lookup o name with
    | none => Except.error ("Unable to find attribute " ++ name)
    | some v => Except.ok v

/-- Modelled from the spec: `Object::has_attr` is declared at `pyl_classes.h:131` but
its body is not among the source files.  Per the spec, it returns a boolean, never
fails, and converts absence (including the empty/null handle) into `false`. -/
def has_attr (lookup : Nat → String → Option Nat) (obj : Option Nat)
    (name : String) : Bool :=
  match obj with
  | none => false
  | some o => (lookup o name).isSome

/-- C4: `has_attr name` returns true iff `get_attr name` would succeed, for every
lookup table, object state and name; on the empty/null handle it returns `false`
(and, being a total `Bool`-valued function, it never fails). -/
theorem C4_has_attr_iff_get_attr (lookup : Nat → String → Option Nat)
    (obj : Option Nat) (name : String) :
    (has_attr lookup obj name = true ↔ ∃ v, get_attr lookup obj name = Except.ok v) ∧
    has_attr lookup none name = false := by
  refine ⟨?_, rfl⟩
  cases obj with
  | none => simp [has_attr, get_attr]
  | some o =>
    cases hl : lookup o name with
    | none => simp [has_attr, get_attr, hl]
    | some v => simp [has_attr, get_attr, hl]

/-- A `PyMethodDef` descriptor.  The `char*` name and doc fields hold addresses of
string nodes (`none` = `NULL`); the function pointer is a `Nat` identifier
(`none` = `NULL`). -/
structure PyMethodDef where
  ml_name : Option Nat
  ml_meth : Option Nat
  ml_flags : Int
  ml_doc : Option Nat
deriving DecidableEq, Repr

/-- The sentinel terminator `{ NULL, NULL, 0, }` (the omitted fourth field is
value-initialized to `NULL`). -/
def sentinelDef : PyMethodDef := ⟨none, none, 0, none⟩

/-- `MethodDefinitions`: the contiguous descriptor array `v_Defs` plus the two
`std::list<std::string>` string stores.  A `std::list` node never moves, so a node's
address is modelled by its position in the append-only list: the i-th stored string
lives at address i forever. -/
structure MethodDefinitions where
  v_Defs : List PyMethodDef
  MethodNames : List String
  MethodDocs : List String
deriving DecidableEq, Repr

/-- The `MethodDefinitions` default constructor, `v_Defs(1, { NULL, NULL, 0, })`:
one entry, the sentinel terminator. -/
def MethodDefinitions.init : MethodDefinitions := ⟨[sentinelDef], [], []⟩

/-- Modelled from the spec: `MethodDefinitions::AddMethod` is declared at
`pyl_classes.h:49` but its body is not among the source files.  Per the spec and the
header comments, it stores `name` and `docs` in the node-based string containers,
appends a descriptor referencing those stored strings' addresses together with the
function pointer and flags, inserted immediately before the sentinel, and returns the
index of the newly inserted descriptor. -/
def MethodDefinitions.AddMethod (m : MethodDefinitions) (name : String) (fnPtr : Nat)
    (flags : Int) (docs : String) : MethodDefinitions × Nat :=
  let newDef : PyMethodDef :=
    ⟨some m.MethodNames.length, some fnPtr, flags, some m.MethodDocs.length⟩
  (⟨m.v_Defs.insertIdx (m.v_Defs.length - 1) newDef,
    m.MethodNames ++ [name], m.MethodDocs ++ [docs]⟩,
   m.v_Defs.length - 1)

/-- One `AddMethod` call per list entry (name, function pointer, flags, docs). -/
def applyMethods (m : MethodDefinitions) :
    List (String × Nat × Int × String) → MethodDefinitions
  | [] => m
  | c :: rest => applyMethods (m.AddMethod c.1 c.2.1 c.2.2.1 c.2.2.2).1 rest

theorem insertIdx_before_last {α : Type} (front : List α) (s x : α) :
    (front ++ [s]).insertIdx front.length x = (front ++ [x]) ++ [s] := by
  induction front with
  | nil => rfl
  | cons a t ih => simpa [List.insertIdx_succ_cons] using ih

theorem applyMethods_vDefs (calls : List (String × Nat × Int × String)) :
    ∀ (m : MethodDefinitions) (front : List PyMethodDef),
      m.v_Defs = front ++ [sentinelDef] →
      ∃ front' : List PyMethodDef,
        (applyMethods m calls).v_Defs = front' ++ [sentinelDef] ∧
        front'.length = front.length + calls.length := by
  induction calls with
  | nil => intro m front hm; exact ⟨front, hm, rfl⟩
  | cons c rest ih =>
      intro m front hm
      have hstep : ((m.AddMethod c.1 c.2.1 c.2.2.1 c.2.2.2).1).v_Defs =
          (front ++ [⟨some m.MethodNames.length, some c.2.1, c.2.2.1,
            some m.MethodDocs.length⟩]) ++ [sentinelDef] := by
        simp only [MethodDefinitions.AddMethod, hm]
        have hlen : (front ++ [sentinelDef]).length - 1 = front.length := by simp
        rw [hlen, insertIdx_before_last]
      obtain ⟨front', h1, h2⟩ := ih (m.AddMethod c.1 c.2.1 c.2.2.1 c.2.2.2).1
        (front ++ [⟨some m.MethodNames.length, some c.2.1, c.2.2.1,
          some m.MethodDocs.length⟩]) hstep
      refine ⟨front', h1, ?_⟩
      simp at h2
      simp [h2]
      omega

/-- C5: a freshly constructed method table holds exactly the sentinel; after M
`AddMethod` calls it holds exactly M+1 entries, each new descriptor inserted
immediately before the sentinel, so the sentinel is always the last element. -/
theorem C5_table_size_and_sentinel (calls : List (String × Nat × Int × String)) :
    MethodDefinitions.init.v_Defs = [sentinelDef] ∧
    (applyMethods MethodDefinitions.init calls).v_Defs.length = calls.length + 1 ∧
    (applyMethods MethodDefinitions.init calls).v_Defs.getLast? = some sentinelDef := by
  obtain ⟨front', h1, h2⟩ := applyMethods_vDefs calls MethodDefinitions.init [] rfl
  refine ⟨rfl, ?_, ?_⟩
  · rw [h1]; simp [h2]
  · rw [h1]; simp

/-- C6: the string cells stored by earlier `AddMethod` calls keep both their node
addresses (indices into the append-only stores) and their contents when a later
descriptor is inserted. -/
theorem C6_string_cells_stable (m : MethodDefinitions) (name : String) (fnPtr : Nat)
    (flags : Int) (docs : String) (i : Nat) (hi : i < m.MethodNames.length)
    (j : Nat) (hj : j < m.MethodDocs.length) :
    ((m.AddMethod name fnPtr flags docs).1).MethodNames[i]? = m.MethodNames[i]? ∧
    ((m.AddMethod name fnPtr flags docs).1).MethodDocs[j]? = m.MethodDocs[j]? := by
  constructor
  · simp only [MethodDefinitions.AddMethod]
    exact List.getElem?_append_left hi
  · simp only [MethodDefinitions.AddMethod]
    exact List.getElem?_append_left hj

/-- Witness for C6 at a concrete input: one stored method, then a second insertion. -/
theorem C6_witness :
    (((MethodDefinitions.init.AddMethod "f" 1 0 "df").1.AddMethod "g" 2 0 "dg").1
        |>.MethodNames[0]? =
      (MethodDefinitions.init.AddMethod "f" 1 0 "df").1.MethodNames[0]?) ∧
    (((MethodDefinitions.init.AddMethod "f" 1 0 "df").1.AddMethod "g" 2 0 "dg").1
        |>.MethodDocs[0]? =
      (MethodDefinitions.init.AddMethod "f" 1 0 "df").1.MethodDocs[0]?) :=
  C6_string_cells_stable (MethodDefinitions.init.AddMethod "f" 1 0 "df").1
    "g" 2 0 "dg" 0 (by decide) 0 (by decide)

/-- The state of one foreign object shared through `Object`'s
`std::shared_ptr<PyObject>` (`pyshared_ptr`) whose deleter is `PyObjectDeleter`:
`obj` is the wrapped object's identity, `useCount` the shared_ptr use count,
`foreignRefs` the foreign object's reference count, and `decrements` the number of
`Py_XDECREF` calls the deleter has performed so far. -/
structure SharedHandle where
  obj : Nat
  useCount : Nat
  foreignRefs : Nat
  decrements : Nat
deriving DecidableEq, Repr

/-- Modelled from the spec: `Object(PyObject*)` and `make_pyshared` are declared at
`pyl_classes.h:75` and `pyl_classes.h:164` but their bodies are not among the source
files.  Per the header documentation, "This Object takes ownership of the PyObject*
argument.  That means no Py_INCREF is performed on it": the handle starts with use
count 1 and the foreign reference count untouched. -/
def SharedHandle.fromRaw (p : Nat) (refs : Nat) : SharedHandle :=
  ⟨p, 1, refs, 0⟩

/-- Copying the wrapper copies the shared_ptr: same underlying object, one more
use. -/
def SharedHandle.copy (s : SharedHandle) : SharedHandle :=
  { s with useCount := s.useCount + 1 }

/-- Destroying one wrapper copy: the last live copy runs `PyObjectDeleter`
(`Py_XDECREF`, `pyl_classes.h:12-16`), decrementing the foreign reference count
once; any earlier copy only drops the use count. -/
def SharedHandle.destroy (s : SharedHandle) : SharedHandle :=
  if s.useCount = 1 then ⟨s.obj, 0, s.foreignRefs - 1, s.decrements + 1⟩
  else { s with useCount := s.useCount - 1 }

theorem copy_iterate (p refs k : Nat) :
    SharedHandle.copy^[k] (SharedHandle.fromRaw p refs) = ⟨p, k + 1, refs, 0⟩ := by
  induction k with
  | zero => rfl
  | succ k ih => rw [Function.iterate_succ_apply', ih]; rfl

theorem destroy_iterate (n : Nat) :
    ∀ s : SharedHandle, s.useCount = n + 1 →
      SharedHandle.destroy^[n + 1] s =
        ⟨s.obj, 0, s.foreignRefs - 1, s.decrements + 1⟩ := by
  induction n with
  | zero =>
      intro s hs
      simpa [Function.iterate_one] using
        (by simp [SharedHandle.destroy, hs] :
          SharedHandle.destroy s = ⟨s.obj, 0, s.foreignRefs - 1, s.decrements + 1⟩)
  | succ n ih =>
      intro s hs
      rw [Function.iterate_succ_apply]
      have hd : SharedHandle.destroy s = { s with useCount := s.useCount - 1 } := by
        rw [SharedHandle.destroy, if_neg (by omega)]
      rw [hd]
      exact ih { s with useCount := s.useCount - 1 } (by simp [hs])

/-- C3: constructing a handle from a raw owned reference performs no reference-count
increment; every copy shares the same underlying object; and destroying all k+1
copies decrements the foreign reference count exactly once in total (the deleter
runs exactly once). -/
theorem C3_release_exactly_once (p refs k : Nat) :
    (SharedHandle.fromRaw p refs).foreignRefs = refs ∧
    (SharedHandle.copy^[k] (SharedHandle.fromRaw p refs)).obj = p ∧
    SharedHandle.destroy^[k + 1] (SharedHandle.copy^[k] (SharedHandle.fromRaw p refs))
      = ⟨p, 0, refs - 1, 1⟩ := by
  refine ⟨rfl, ?_, ?_⟩
  · rw [copy_iterate]
  · rw [copy_iterate]
    exact destroy_iterate k ⟨p, k + 1, refs, 0⟩ rfl

/-- The reasons script loading can fail, per the spec: file not found, syntax error,
execution error. -/
inductive LoadFailure where
  | fileNotFound
  | syntaxError
  | execError
deriving DecidableEq, Repr

/-- Modelled from the spec: `Object::from_script` is declared at `pyl_classes.h:158`
but its body is not among the source files.  Per the spec, it loads the script at
the given path through the foreign runtime and, whenever loading fails for any
reason, throws a single `std::runtime_error` kind, collapsing the specific cause. -/
def from_script (loader : String → Except LoadFailure Nat) (path : String) :
    Except String Nat :=
  match loader path with
  | Except.error _ => Except.error ("Failed to load script " ++ path)
  | Except.ok m => Except.ok m

/-- C8: whenever the foreign loader fails, for any cause, `from_script` reports the
single runtime-error kind; in particular a nonexistent path fails with a runtime
error. -/
theorem C8_from_script_collapses_errors (loader : String → Except LoadFailure Nat)
    (path : String) (c : LoadFailure) (hc : loader path = Except.error c) :
    from_script loader path = Except.error ("Failed to load script " ++ path) := by
  simp [from_script, hc]

/-- Witness for C8 at a concrete input: a loader that reports file-not-found. -/
theorem C8_witness :
    from_script (fun _ => Except.error LoadFailure.fileNotFound) "missing.py" =
      Except.error ("Failed to load script " ++ "missing.py") :=
  C8_from_script_collapses_errors (fun _ => Except.error LoadFailure.fileNotFound)
    "missing.py" LoadFailure.fileNotFound rfl

/-- `ExposedClass`: live instance handles, display name, generated class
definition. -/
structure ExposedClass where
  instances : List Nat
  pyname : String
  classDef : String
deriving DecidableEq, Repr

/-- The `ExposedClass` constructor with its declared default arguments,
`ExposedClass(std::string n = " ", std::string d = "", std::vector<PyObject*> v = {})`
(`pyl_classes.h:25`). -/
def ExposedClass.make (n : String) (d : String) (v : List Nat) : ExposedClass :=
  ⟨v, n, d⟩

/-- A default-constructed `ExposedClass`: every argument takes its declared
default. -/
def ExposedClass.defaultMake : ExposedClass := ExposedClass.make " " "" []

/-- C9: a default-constructed exposed-class record has display name equal to a single
space character, an empty class-definition string, and an empty instance list. -/
theorem C9_exposed_class_defaults :
    ExposedClass.defaultMake.pyname = " " ∧
    ExposedClass.defaultMake.classDef = "" ∧
    ExposedClass.defaultMake.instances = [] :=
  ⟨rfl, rfl, rfl⟩

end PyLiason
